import Mathlib

set_option maxHeartbeats 1000000

/-!
Shallow embedding of the marketing configuration validator
(`src/config_validator.py`) and the test-harness dataset namer
(`src/common/py_libs/test_harness.py`).

Python dictionaries are modelled as association lists over `Value`;
exceptions are modelled with `Except PyErr`; calls to the external
`resource_validation_helper.validate_resources` collaborator are recorded
in a trace and answered by an oracle `RVOracle`; every `logging.error`
diagnostic is recorded as a `Diag` event.
-/

/-- Python `s.lower()` (ASCII case mapping, which covers every string in
the configs of this repository). -/
def pyLower (s : String) : String := String.mk (s.data.map Char.toLower)

/-- Left-to-right non-overlapping replacement scan behind `pyReplace`,
with a structural fuel argument (one unit per consumed character). -/
def pyReplaceAux (old new : List Char) : Nat → List Char → List Char
  | 0, s => s
  | _, [] => []
  | fuel + 1, c :: rest =>
    match old with
    | [] => c :: rest
    | o :: os =>
      if (o :: os).isPrefixOf (c :: rest) then
        new ++ pyReplaceAux old new fuel (rest.drop os.length)
      else
        c :: pyReplaceAux old new fuel rest

/-- Python `s.replace(old, new)` for a non-empty `old` (the only way the
source uses it): every non-overlapping occurrence, scanned left to
right. -/
def pyReplace (s old new : String) : String :=
  String.mk (pyReplaceAux old.data new.data s.data.length s.data)

/-- Python `s.startswith(pre)`. -/
def pyStartsWith (s pre : String) : Bool := pre.data.isPrefixOf s.data

/-- Python values as they occur in a parsed config document. -/
inductive Value where
  | none
  | bool (b : Bool)
  | int (n : Int)
  | str (s : String)
  | dict (entries : List (String × Value))

/-- Python truthiness, `bool(v)`. -/
def Value.truthy : Value → Bool
  | .none => false
  | .bool b => b
  | .int n => n != 0
  | .str s => s != ""
  | .dict d => !d.isEmpty

/-- First-match lookup in a Python dict rendered as an association list. -/
def lookupKey (d : List (String × Value)) (k : String) : Option Value :=
  match d with
  | [] => Option.none
  | kv :: rest => if kv.1 == k then some kv.2 else lookupKey rest k

/-- Payloads of the `ValueError`s raised by the two sub-module validators. -/
inductive SubErr where
  | missingGoogleAdsAttrs (attrs : List String)
  | missingGoogleAdsDatasetsAttrs (attrs : List String)
  | missingCM360Attrs (attrs : List String)
  | missingCM360DatasetsAttrs (attrs : List String)
  | resourceValidationFailed

/-- Python exceptions relevant to the validator. `unexpectedError` stands for
an arbitrary unexpected exception raised by a collaborator. -/
inductive PyErr where
  | keyError (k : String)
  | attributeError (attr : String)
  | typeError (msg : String)
  | valueError (e : SubErr)
  | unexpectedError (msg : String)

/-- Python subscription `v[k]`: `KeyError` on a missing key, `TypeError`
when `v` is not a dict. -/
def Value.getItem : Value → String → Except PyErr Value
  | .dict d, k =>
      match lookupKey d k with
      | some v => Except.ok v
      | Option.none => Except.error (PyErr.keyError k)
  | _, k => Except.error (PyErr.typeError k)

/-- Python `v.lower()`: succeeds on strings only, `AttributeError` otherwise. -/
def Value.lowerM : Value → Except PyErr String
  | .str s => Except.ok (pyLower s)
  | _ => Except.error (PyErr.attributeError "lower")

/-- The test `v.get(attr) is None or v.get(attr) == ""` applied to the
looked-up value (`Value.none` standing for both an absent key and `None`).
Python `v == ""` is true exactly for the empty string. -/
def isMissingOrEmpty : Value → Bool
  | .none => true
  | .str s => s == ""
  | _ => false

mutual
/-- Python `repr(v)` (string escaping inside nested containers is
approximated: quotes are emitted but the characters are not escaped). -/
def pyRepr : Value → String
  | .none => "None"
  | .bool true => "True"
  | .bool false => "False"
  | .int n => toString n
  | .str s => "\x27" ++ s ++ "\x27"
  | .dict d => "\x7b" ++ pyReprEntries d ++ "\x7d"

/-- Comma-separated rendering of dict entries, as in Python `repr`. -/
def pyReprEntries : List (String × Value) → String
  | [] => ""
  | [kv] => "\x27" ++ kv.1 ++ "\x27: " ++ pyRepr kv.2
  | kv :: rest => "\x27" ++ kv.1 ++ "\x27: " ++ pyRepr kv.2 ++ ", " ++ pyReprEntries rest
end

/-- Python `str(v)`, as used by f-string interpolation. -/
def pyStr : Value → String
  | .str s => s
  | v => pyRepr v

/-- A configuration document: the root dict of `config.json`. -/
abbrev Cfg := List (String × Value)

/-- `resource_validation_helper.DatasetConstraints(full_name, mustExist,
checkAccess, location)` as constructed by the validators. -/
structure DatasetConstraints where
  fullName : String
  mustExist : Bool
  checkAccess : Bool
  location : Value

/-- `resource_validation_helper.BucketConstraints(name, mustExist, location)`
as constructed by `_validate_cm360`. -/
structure BucketConstraints where
  name : Value
  mustExist : Bool
  location : Value

/-- One invocation of `resource_validation_helper.validate_resources`. -/
structure RVCall where
  buckets : List BucketConstraints
  datasets : List DatasetConstraints

/-- Oracle for the external collaborator: what
`validate_resources(buckets, datasets)` returns, or the exception it
raises, for a given call. -/
def RVOracle := RVCall → Except PyErr Bool

/-- Outcome of a sub-module validator: the value returned or the exception
raised, together with the collaborator calls it performed. -/
structure SubRun where
  result : Except PyErr Unit
  calls : List RVCall

/-- The attribute batch checked on the GoogleAds sub-mapping. -/
def googleadsAttrs : List String := ["deployCDC", "datasets", "lookbackDays"]

/-- The attribute batch checked on the CM360 sub-mapping. -/
def cm360Attrs : List String := ["deployCDC", "dataTransferBucket", "datasets"]

/-- The keys checked inside each `datasets` sub-mapping. -/
def datasetsAttrs : List String := ["cdc", "raw", "reporting"]

/-- The attribute batch checked on the marketing mapping by `validate`. -/
def marketingAttrs : List String := ["deployGoogleAds", "deployCM360", "dataflowRegion"]

/-- `_validate_googleads(cfg)`: batch-checks the GoogleAds attributes and
the `datasets` keys, builds the dataset constraints and delegates to the
resource-validation collaborator. -/
def validateGoogleads (rv : RVOracle) (cfg : Cfg) : SubRun :=
  match lookupKey cfg "marketing" with
  | Option.none => ⟨Except.error (PyErr.keyError "marketing"), []⟩
  | some mv =>
    match mv.getItem "GoogleAds" with
    | Except.error e => ⟨Except.error e, []⟩
    | Except.ok gav =>
      match gav with
      | .dict g =>
        let missing := googleadsAttrs.filter
          (fun a => isMissingOrEmpty ((lookupKey g a).getD .none))
        if !missing.isEmpty then
          ⟨Except.error (PyErr.valueError (SubErr.missingGoogleAdsAttrs missing)), []⟩
        else
          match (Value.dict g).getItem "datasets" with
          | Except.error e => ⟨Except.error e, []⟩
          | Except.ok dsv =>
            match dsv with
            | .dict ds =>
              let missingDs := datasetsAttrs.filter
                (fun a => isMissingOrEmpty ((lookupKey ds a).getD .none))
              if !missingDs.isEmpty then
                ⟨Except.error
                  (PyErr.valueError (SubErr.missingGoogleAdsDatasetsAttrs missingDs)), []⟩
              else
                match lookupKey cfg "projectIdSource" with
                | Option.none => ⟨Except.error (PyErr.keyError "projectIdSource"), []⟩
                | some source =>
                  match lookupKey cfg "projectIdTarget" with
                  | Option.none => ⟨Except.error (PyErr.keyError "projectIdTarget"), []⟩
                  | some target =>
                    match lookupKey cfg "location" with
                    | Option.none => ⟨Except.error (PyErr.keyError "location"), []⟩
                    | some location =>
                      match (Value.dict ds).getItem "raw" with
                      | Except.error e => ⟨Except.error e, []⟩
                      | Except.ok rawv =>
                        match (Value.dict ds).getItem "cdc" with
                        | Except.error e => ⟨Except.error e, []⟩
                        | Except.ok cdcv =>
                          match (Value.dict ds).getItem "reporting" with
                          | Except.error e => ⟨Except.error e, []⟩
                          | Except.ok repv =>
                            let call : RVCall :=
                              ⟨[],
                               [⟨pyStr source ++ "." ++ pyStr rawv, true, true, location⟩,
                                ⟨pyStr source ++ "." ++ pyStr cdcv, true, true, location⟩,
                                ⟨pyStr target ++ "." ++ pyStr repv, false, true, location⟩]⟩
                            match rv call with
                            | Except.ok true => ⟨Except.ok (), [call]⟩
                            | Except.ok false =>
                                ⟨Except.error
                                  (PyErr.valueError SubErr.resourceValidationFailed), [call]⟩
                            | Except.error e => ⟨Except.error e, [call]⟩
            | _ => ⟨Except.error (PyErr.attributeError "get"), []⟩
      | _ => ⟨Except.error (PyErr.attributeError "get"), []⟩

/-- `_validate_cm360(cfg)`: batch-checks the CM360 attributes and the
`datasets` keys, builds the bucket and dataset constraints and delegates
to the resource-validation collaborator. -/
def validateCm360 (rv : RVOracle) (cfg : Cfg) : SubRun :=
  match lookupKey cfg "marketing" with
  | Option.none => ⟨Except.error (PyErr.keyError "marketing"), []⟩
  | some mv =>
    match mv.getItem "CM360" with
    | Except.error e => ⟨Except.error e, []⟩
    | Except.ok cmv =>
      match cmv with
      | .dict cm =>
        let missing := cm360Attrs.filter
          (fun a => isMissingOrEmpty ((lookupKey cm a).getD .none))
        if !missing.isEmpty then
          ⟨Except.error (PyErr.valueError (SubErr.missingCM360Attrs missing)), []⟩
        else
          match (Value.dict cm).getItem "datasets" with
          | Except.error e => ⟨Except.error e, []⟩
          | Except.ok dsv =>
            match dsv with
            | .dict ds =>
              let missingDs := datasetsAttrs.filter
                (fun a => isMissingOrEmpty ((lookupKey ds a).getD .none))
              if !missingDs.isEmpty then
                ⟨Except.error
                  (PyErr.valueError (SubErr.missingCM360DatasetsAttrs missingDs)), []⟩
              else
                match lookupKey cfg "projectIdSource" with
                | Option.none => ⟨Except.error (PyErr.keyError "projectIdSource"), []⟩
                | some source =>
                  match lookupKey cfg "projectIdTarget" with
                  | Option.none => ⟨Except.error (PyErr.keyError "projectIdTarget"), []⟩
                  | some target =>
                    match lookupKey cfg "location" with
                    | Option.none => ⟨Except.error (PyErr.keyError "location"), []⟩
                    | some location =>
                      match (Value.dict cm).getItem "dataTransferBucket" with
                      | Except.error e => ⟨Except.error e, []⟩
                      | Except.ok bucketv =>
                        match (Value.dict ds).getItem "raw" with
                        | Except.error e => ⟨Except.error e, []⟩
                        | Except.ok rawv =>
                          match (Value.dict ds).getItem "cdc" with
                          | Except.error e => ⟨Except.error e, []⟩
                          | Except.ok cdcv =>
                            match (Value.dict ds).getItem "reporting" with
                            | Except.error e => ⟨Except.error e, []⟩
                            | Except.ok repv =>
                              let call : RVCall :=
                                ⟨[⟨bucketv, true, location⟩],
                                 [⟨pyStr source ++ "." ++ pyStr rawv, true, true, location⟩,
                                  ⟨pyStr source ++ "." ++ pyStr cdcv, true, true, location⟩,
                                  ⟨pyStr target ++ "." ++ pyStr repv, false, true, location⟩]⟩
                              match rv call with
                              | Except.ok true => ⟨Except.ok (), [call]⟩
                              | Except.ok false =>
                                  ⟨Except.error
                                    (PyErr.valueError SubErr.resourceValidationFailed), [call]⟩
                              | Except.error e => ⟨Except.error e, [call]⟩
            | _ => ⟨Except.error (PyErr.attributeError "get"), []⟩
      | _ => ⟨Except.error (PyErr.attributeError "get"), []⟩

/-- The `logging.error` diagnostics emitted by `validate`, with their
payloads. -/
inductive Diag where
  | missingMarketing
  | missingMarketingAttrs (attrs : List String)
  | missingGoogleAdsBlock
  | googleAdsValueError (e : SubErr)
  | googleAdsUnexpected (e : PyErr)
  | missingCM360Block
  | cm360ValueError (e : SubErr)
  | cm360Unexpected (e : PyErr)
  | invalidDataflowRegion (region location : Value)

/-- The `except ValueError` / `except Exception` pair guarding the
GoogleAds sub-validation in `validate`, as a diagnostic selector. -/
def gaDiagOfErr : PyErr → Diag
  | PyErr.valueError se => Diag.googleAdsValueError se
  | e => Diag.googleAdsUnexpected e

/-- The `except ValueError` / `except Exception` pair guarding the
CM360 sub-validation in `validate`, as a diagnostic selector. -/
def cmDiagOfErr : PyErr → Diag
  | PyErr.valueError se => Diag.cm360ValueError se
  | e => Diag.cm360Unexpected e

/-- Outcome of one sub-module branch of `validate`: continue to the next
stage, or reject (return `None`) with a diagnostic. Collaborator calls
performed so far are carried along. -/
inductive StageOut where
  | cont (calls : List RVCall)
  | reject (calls : List RVCall) (d : Diag)

/-- The GoogleAds branch of `validate`: skipped when `deployGoogleAds` is
falsy; rejects when the `GoogleAds` sub-mapping is falsy; otherwise runs
`_validate_googleads` with every exception caught and converted. -/
def gaStage (rv : RVOracle) (cfg : Cfg) (m : List (String × Value)) : StageOut :=
  if ((lookupKey m "deployGoogleAds").getD .none).truthy then
    if !((lookupKey m "GoogleAds").getD .none).truthy then
      StageOut.reject [] Diag.missingGoogleAdsBlock
    else
      match validateGoogleads rv cfg with
      | ⟨Except.ok _, cs⟩ => StageOut.cont cs
      | ⟨Except.error e, cs⟩ => StageOut.reject cs (gaDiagOfErr e)
  else StageOut.cont []

/-- The CM360 branch of `validate`, mirroring `gaStage`. -/
def cmStage (rv : RVOracle) (cfg : Cfg) (m : List (String × Value)) : StageOut :=
  if ((lookupKey m "deployCM360").getD .none).truthy then
    if !((lookupKey m "CM360").getD .none).truthy then
      StageOut.reject [] Diag.missingCM360Block
    else
      match validateCm360 rv cfg with
      | ⟨Except.ok _, cs⟩ => StageOut.cont cs
      | ⟨Except.error e, cs⟩ => StageOut.reject cs (cmDiagOfErr e)
  else StageOut.cont []

/-- The tail of `validate`: `region = marketing["dataflowRegion"].lower()`,
`location = cfg["location"].lower()`, and the containment test. These
subscriptions and `lower()` calls are outside any `try` block, so their
exceptions propagate. -/
def regionStage (cfg : Cfg) (m : List (String × Value)) :
    Except PyErr (Option Cfg) × List Diag :=
  match lookupKey m "dataflowRegion" with
  | Option.none => (Except.error (PyErr.keyError "dataflowRegion"), [])
  | some regionVal =>
    match regionVal.lowerM with
    | Except.error e => (Except.error e, [])
    | Except.ok region =>
      match lookupKey cfg "location" with
      | Option.none => (Except.error (PyErr.keyError "location"), [])
      | some locationVal =>
        match locationVal.lowerM with
        | Except.error e => (Except.error e, [])
        | Except.ok location =>
          if region != location && !(pyStartsWith region (location ++ "-")) then
            (Except.ok Option.none, [Diag.invalidDataflowRegion regionVal locationVal])
          else
            (Except.ok (some cfg), [])

/-- Outcome of a whole `validate` run: the value returned or the exception
raised, the collaborator calls performed, and the error diagnostics
logged. `Except.ok (some cfg)` is a successful return of the config,
`Except.ok Option.none` is the rejection signal `None`. -/
structure VRun where
  result : Except PyErr (Option Cfg)
  calls : List RVCall
  errlogs : List Diag

/-- `validate` after the marketing attribute batch check has passed:
GoogleAds branch, then CM360 branch, then the region containment check. -/
def afterAttrs (rv : RVOracle) (cfg : Cfg) (m : List (String × Value)) : VRun :=
  match gaStage rv cfg m with
  | StageOut.reject cs d => ⟨Except.ok Option.none, cs, [d]⟩
  | StageOut.cont csga =>
    match cmStage rv cfg m with
    | StageOut.reject cs d => ⟨Except.ok Option.none, csga ++ cs, [d]⟩
    | StageOut.cont cscm =>
      let rs := regionStage cfg m
      ⟨rs.1, csga ++ cscm, rs.2⟩

/-- `validate` once the `marketing` mapping is known to be a non-empty
dict: the batch check of `deployGoogleAds`, `deployCM360`,
`dataflowRegion`, then the remaining stages. -/
def afterMarketingPresent (rv : RVOracle) (cfg : Cfg)
    (m : List (String × Value)) : VRun :=
  let missing := marketingAttrs.filter
    (fun a => isMissingOrEmpty ((lookupKey m a).getD .none))
  if !missing.isEmpty then
    ⟨Except.ok Option.none, [], [Diag.missingMarketingAttrs missing]⟩
  else afterAttrs rv cfg m

/-- Top-level `validate(cfg)`. Returns `cfg` unchanged when
`deployMarketing` is falsy; rejects when the `marketing` mapping is falsy;
raises `AttributeError` when `marketing` is truthy but not a dict (its
`.get` calls are outside any `try`); otherwise runs the staged pipeline. -/
def validate (rv : RVOracle) (cfg : Cfg) : VRun :=
  if !((lookupKey cfg "deployMarketing").getD (Value.bool false)).truthy then
    ⟨Except.ok (some cfg), [], []⟩
  else
    match (lookupKey cfg "marketing").getD .none with
    | Value.dict m =>
        if m.isEmpty then ⟨Except.ok Option.none, [], [Diag.missingMarketing]⟩
        else afterMarketingPresent rv cfg m
    | v =>
        if !v.truthy then ⟨Except.ok Option.none, [], [Diag.missingMarketing]⟩
        else ⟨Except.error (PyErr.attributeError "get"), [], []⟩

/-- `TEST_HARNESS_VERSION` from `test_harness.py`. -/
def TEST_HARNESS_VERSION : String := "5_0"

/-- `get_test_harness_dataset(workload_path, target_dataset_type, location)`
from `test_harness.py`. -/
def get_test_harness_dataset (workload_path : String)
    (target_dataset_type : String) (location : String) : String :=
  let workload_prefix := pyReplace workload_path "." "__"
  let location := pyReplace location "-" "_"
  let dataset_name := workload_prefix ++ "__" ++ target_dataset_type ++ "__" ++
    TEST_HARNESS_VERSION ++ "__" ++ location
  pyLower dataset_name

/-- A collaborator oracle that reports every resource check as passing. -/
def rvAlwaysTrue : RVOracle := fun _ => Except.ok true

/-- A collaborator oracle that reports every resource check as failing. -/
def rvAlwaysFalse : RVOracle := fun _ => Except.ok false

/-- A collaborator oracle that raises an unexpected exception on every
call. -/
def rvAlwaysRaises : RVOracle := fun _ => Except.error (PyErr.unexpectedError "boom")

/-- A config with marketing deployed, both sub-modules disabled, a valid
`dataflowRegion`, but no root-level `location` key. -/
def cfgNoLocation : Cfg :=
  [("deployMarketing", Value.bool true),
   ("marketing", Value.dict
     [("deployGoogleAds", Value.bool false),
      ("deployCM360", Value.bool false),
      ("dataflowRegion", Value.str "us-central1")])]

/-- The first region-containment example of the spec: `location="US"`,
`dataflowRegion="us-central1"`, no sub-module enabled. -/
def cfgLocUS : Cfg :=
  [("deployMarketing", Value.bool true),
   ("location", Value.str "US"),
   ("marketing", Value.dict
     [("deployGoogleAds", Value.bool false),
      ("deployCM360", Value.bool false),
      ("dataflowRegion", Value.str "us-central1")])]

/-- The second region-containment example of the spec: `location="us"`,
`dataflowRegion="us-central1"`, no sub-module enabled. -/
def cfgLocLowerUs : Cfg :=
  [("deployMarketing", Value.bool true),
   ("location", Value.str "us"),
   ("marketing", Value.dict
     [("deployGoogleAds", Value.bool false),
      ("deployCM360", Value.bool false),
      ("dataflowRegion", Value.str "us-central1")])]

/-- Discriminator: is this diagnostic the marketing attribute batch
rejection? -/
def Diag.isMissingMarketingAttrsDiag : Diag → Bool
  | .missingMarketingAttrs _ => true
  | _ => false

/-- Discriminator: is this diagnostic the region-containment rejection? -/
def Diag.isInvalidRegionDiag : Diag → Bool
  | .invalidDataflowRegion _ _ => true
  | _ => false

/-- Discriminator: is this diagnostic about the CM360 sub-module? -/
def Diag.isCM360Diag : Diag → Bool
  | .missingCM360Block => true
  | .cm360ValueError _ => true
  | .cm360Unexpected _ => true
  | _ => false

/-- A config whose marketing mapping is missing two of the three batched
attributes (`deployGoogleAds` and `dataflowRegion`). -/
def cfgMissingTwo : Cfg :=
  [("deployMarketing", Value.bool true),
   ("location", Value.str "us"),
   ("marketing", Value.dict [("deployCM360", Value.bool true)])]

/-- A config that reaches the region check with `location="eu"` and
`dataflowRegion="us-central1"`, which must be rejected. -/
def cfgRegionMismatch : Cfg :=
  [("deployMarketing", Value.bool true),
   ("location", Value.str "eu"),
   ("marketing", Value.dict
     [("deployGoogleAds", Value.bool false),
      ("deployCM360", Value.bool false),
      ("dataflowRegion", Value.str "us-central1")])]

/-- A config with GoogleAds enabled but its sub-mapping absent, while CM360
is also enabled and misconfigured (its sub-mapping is absent too). -/
def cfgGaBlockMissing : Cfg :=
  [("deployMarketing", Value.bool true),
   ("location", Value.str "us"),
   ("marketing", Value.dict
     [("deployGoogleAds", Value.bool true),
      ("deployCM360", Value.bool true),
      ("dataflowRegion", Value.str "us-central1")])]

/-- A config with GoogleAds enabled and missing `lookbackDays`, while CM360
is also enabled and misconfigured (its sub-mapping is absent). -/
def cfgGaFail : Cfg :=
  [("deployMarketing", Value.bool true),
   ("location", Value.str "us"),
   ("marketing", Value.dict
     [("deployGoogleAds", Value.bool true),
      ("deployCM360", Value.bool true),
      ("dataflowRegion", Value.str "us-central1"),
      ("GoogleAds", Value.dict
        [("deployCDC", Value.bool true),
         ("datasets", Value.dict
           [("cdc", Value.str "ga_cdc"),
            ("raw", Value.str "ga_raw"),
            ("reporting", Value.str "ga_rep")])])])]

/-- A fully populated, valid config with both sub-modules enabled. -/
def cfgFull : Cfg :=
  [("deployMarketing", Value.bool true),
   ("projectIdSource", Value.str "src-project"),
   ("projectIdTarget", Value.str "tgt-project"),
   ("location", Value.str "us"),
   ("marketing", Value.dict
     [("deployGoogleAds", Value.bool true),
      ("deployCM360", Value.bool true),
      ("dataflowRegion", Value.str "us-central1"),
      ("GoogleAds", Value.dict
        [("deployCDC", Value.bool true),
         ("lookbackDays", Value.int 30),
         ("datasets", Value.dict
           [("cdc", Value.str "ga_cdc"),
            ("raw", Value.str "ga_raw"),
            ("reporting", Value.str "ga_rep")])]),
      ("CM360", Value.dict
        [("deployCDC", Value.bool true),
         ("dataTransferBucket", Value.str "cm-bucket"),
         ("datasets", Value.dict
           [("cdc", Value.str "cm_cdc"),
            ("raw", Value.str "cm_raw"),
            ("reporting", Value.str "cm_rep")])])])]

/-- A config with marketing not deployed. -/
def cfgDisabled : Cfg :=
  [("deployMarketing", Value.bool false),
   ("location", Value.str "us")]

/-- A config with marketing deployed but bound to an empty mapping. -/
def cfgMarketingEmpty : Cfg :=
  [("deployMarketing", Value.bool true),
   ("location", Value.str "us"),
   ("marketing", Value.dict [])]

/-- A config with GoogleAds enabled but bound to an empty mapping. -/
def cfgGaEmpty : Cfg :=
  [("deployMarketing", Value.bool true),
   ("location", Value.str "us"),
   ("marketing", Value.dict
     [("deployGoogleAds", Value.bool true),
      ("deployCM360", Value.bool false),
      ("dataflowRegion", Value.str "us-central1"),
      ("GoogleAds", Value.dict [])])]

/-- A config with CM360 enabled but bound to an empty mapping. -/
def cfgCmEmpty : Cfg :=
  [("deployMarketing", Value.bool true),
   ("location", Value.str "us"),
   ("marketing", Value.dict
     [("deployGoogleAds", Value.bool false),
      ("deployCM360", Value.bool true),
      ("dataflowRegion", Value.str "us-central1"),
      ("CM360", Value.dict [])])]

/-- A config with `deployMarketing` set to the falsy integer `0`. -/
def cfgDeployZero : Cfg :=
  [("deployMarketing", Value.int 0),
   ("location", Value.str "us")]

/-- A config whose `deployGoogleAds` flag is the truthy string `"false"`,
with no `GoogleAds` sub-mapping. -/
def cfgGaStrFalse : Cfg :=
  [("deployMarketing", Value.bool true),
   ("location", Value.str "us"),
   ("marketing", Value.dict
     [("deployGoogleAds", Value.str "false"),
      ("deployCM360", Value.bool false),
      ("dataflowRegion", Value.str "us-central1")])]

/- ===== end of definitions; theorems follow ===== -/

lemma validate_skip {rv : RVOracle} {cfg : Cfg}
    (h : ((lookupKey cfg "deployMarketing").getD (Value.bool false)).truthy = false) :
    validate rv cfg = ⟨Except.ok (some cfg), [], []⟩ := by
  simp [validate, h]

lemma validate_reduce {rv : RVOracle} {cfg : Cfg} {m : List (String × Value)}
    (hdm : ((lookupKey cfg "deployMarketing").getD (Value.bool false)).truthy = true)
    (hm : lookupKey cfg "marketing" = some (Value.dict m))
    (hne : m.isEmpty = false) :
    validate rv cfg = afterMarketingPresent rv cfg m := by
  simp [validate, hdm, hm, hne]

lemma afterMarketingPresent_pass {rv : RVOracle} {cfg : Cfg} {m : List (String × Value)}
    (hattrs : marketingAttrs.filter
      (fun a => isMissingOrEmpty ((lookupKey m a).getD .none)) = []) :
    afterMarketingPresent rv cfg m = afterAttrs rv cfg m := by
  simp [afterMarketingPresent, hattrs]

lemma afterMarketingPresent_reject {rv : RVOracle} {cfg : Cfg} {m : List (String × Value)}
    {l : List String}
    (hattrs : marketingAttrs.filter
      (fun a => isMissingOrEmpty ((lookupKey m a).getD .none)) = l)
    (hl : l.isEmpty = false) :
    afterMarketingPresent rv cfg m =
      ⟨Except.ok Option.none, [], [Diag.missingMarketingAttrs l]⟩ := by
  simp [afterMarketingPresent, hattrs, hl]

lemma regionStage_strings {cfg : Cfg} {m : List (String × Value)} {r l : String}
    (hr : lookupKey m "dataflowRegion" = some (Value.str r))
    (hl : lookupKey cfg "location" = some (Value.str l)) :
    regionStage cfg m =
      (if pyLower r != pyLower l && !(pyStartsWith (pyLower r) (pyLower l ++ "-")) then
        (Except.ok Option.none, [Diag.invalidDataflowRegion (Value.str r) (Value.str l)])
      else
        (Except.ok (some cfg), [])) := by
  simp [regionStage, hr, hl, Value.lowerM]

lemma attr_not_missing {m : List (String × Value)} {a : String}
    (hattrs : marketingAttrs.filter
      (fun x => isMissingOrEmpty ((lookupKey m x).getD .none)) = [])
    (ha : a ∈ marketingAttrs) :
    isMissingOrEmpty ((lookupKey m a).getD .none) = false := by
  have h := List.filter_eq_nil_iff.mp hattrs a ha
  simpa using h

lemma region_lookup_str {m : List (String × Value)}
    (hattrs : marketingAttrs.filter
      (fun x => isMissingOrEmpty ((lookupKey m x).getD .none)) = [])
    (hr : ∀ v, lookupKey m "dataflowRegion" = some v →
      isMissingOrEmpty v = true ∨ ∃ s, v = Value.str s) :
    ∃ s, lookupKey m "dataflowRegion" = some (Value.str s) := by
  have hnm := attr_not_missing (a := "dataflowRegion") hattrs (by simp [marketingAttrs])
  cases hlr : lookupKey m "dataflowRegion" with
  | none => rw [hlr] at hnm; simp [isMissingOrEmpty] at hnm
  | some v =>
    rw [hlr] at hnm
    rcases hr v hlr with h | ⟨s, rfl⟩
    · simp only [Option.getD_some] at hnm
      rw [h] at hnm; cases hnm
    · exact ⟨s, rfl⟩

/-- C7: `get_test_harness_dataset` is the lower-cased concatenation of the
dot-flattened workload path, the dataset type, the fixed tag `5_0` and the
dash-normalized location, joined by double underscores; it maps the two
documented examples accordingly, and is deterministic. -/
theorem get_test_harness_dataset_spec :
    (∀ workload_path target_dataset_type location,
      get_test_harness_dataset workload_path target_dataset_type location =
        pyLower (pyReplace workload_path "." "__" ++ "__" ++ target_dataset_type ++
          "__" ++ "5_0" ++ "__" ++ pyReplace location "-" "_")) ∧
    get_test_harness_dataset "marketing.GoogleAds" "raw" "us-central1" =
      "marketing__googleads__raw__5_0__us_central1" ∧
    get_test_harness_dataset "SAP" "rawECC" "US" = "sap__rawecc__5_0__us" ∧
    (∀ w t l w2 t2 l2, w = w2 → t = t2 → l = l2 →
      get_test_harness_dataset w t l = get_test_harness_dataset w2 t2 l2) := by
  refine ⟨fun _ _ _ => rfl, rfl, rfl, ?_⟩
  intro w t l w2 t2 l2 hw ht hl
  rw [hw, ht, hl]

/-- C7 witness: the determinism conjunct applied at a concrete input. -/
theorem get_test_harness_dataset_spec_witness :
    get_test_harness_dataset "SAP" "raw" "US" = get_test_harness_dataset "SAP" "raw" "US" :=
  get_test_harness_dataset_spec.2.2.2 "SAP" "raw" "US" "SAP" "raw" "US" rfl rfl rfl

/-- C2 counterexample: with `location="US"` and `dataflowRegion="us-central1"`
the validator returns the original config (success), not the rejection
signal, because `location` is lower-cased before the prefix comparison. -/
theorem c2_location_US_is_not_rejected :
    validate rvAlwaysTrue cfgLocUS = ⟨Except.ok (some cfgLocUS), [], []⟩ := rfl

/-- C2 amended: when validation reaches the region-containment check, both
the input with `location="US"`, `dataflowRegion="us-central1"` and the
input with `location="us"`, `dataflowRegion="us-central1"` pass the check
(both strings are lower-cased before the equality/prefix comparison). -/
theorem c2_both_region_examples_pass :
    validate rvAlwaysTrue cfgLocUS = ⟨Except.ok (some cfgLocUS), [], []⟩ ∧
    validate rvAlwaysTrue cfgLocLowerUs = ⟨Except.ok (some cfgLocLowerUs), [], []⟩ :=
  ⟨rfl, rfl⟩

lemma afterAttrs_result_ok {rv : RVOracle} {cfg : Cfg} {m : List (String × Value)}
    {r l : String}
    (hr : lookupKey m "dataflowRegion" = some (Value.str r))
    (hl : lookupKey cfg "location" = some (Value.str l)) :
    ∃ o, (afterAttrs rv cfg m).result = Except.ok o := by
  unfold afterAttrs
  cases gaStage rv cfg m with
  | reject cs d => exact ⟨Option.none, rfl⟩
  | cont csga =>
    cases cmStage rv cfg m with
    | reject cs d => exact ⟨Option.none, rfl⟩
    | cont cscm =>
      rw [regionStage_strings hr hl]
      by_cases hc :
          (pyLower r != pyLower l && !pyStartsWith (pyLower r) (pyLower l ++ "-")) = true
      · exact ⟨Option.none, by simp [hc]⟩
      · exact ⟨some cfg, by simp [hc]⟩

/-- C1 counterexample: on a config with marketing deployed, both
sub-modules disabled and no root-level `location` key, `validate` raises
`KeyError` from `cfg["location"]` at the region-containment check (the
only `try` blocks guard the sub-module validations). -/
theorem validate_raises_on_missing_location :
    (validate rvAlwaysTrue cfgNoLocation).result =
      Except.error (PyErr.keyError "location") := rfl

/-- C1 amended: `validate` never raises — returning either the original
config or the rejection signal, with collaborator exceptions always caught
— provided the root `location` field is present as a string, a truthy
`marketing` value is a mapping, and its `dataflowRegion`, when present and
non-empty, is a string; the accesses to those root-level fields are
outside every `try` block and can raise when malformed. -/
theorem validate_never_raises_wellformed :
    ∀ (rv : RVOracle) (cfg : Cfg),
      (∀ v, lookupKey cfg "marketing" = some v → v.truthy = true →
        ∃ d, v = Value.dict d) →
      (∀ d v, lookupKey cfg "marketing" = some (Value.dict d) →
        lookupKey d "dataflowRegion" = some v →
        isMissingOrEmpty v = true ∨ ∃ s, v = Value.str s) →
      (∃ s, lookupKey cfg "location" = some (Value.str s)) →
      ∃ o, (validate rv cfg).result = Except.ok o := by
  intro rv cfg hmshape hrshape hloc
  by_cases hdm : ((lookupKey cfg "deployMarketing").getD (Value.bool false)).truthy
  · cases hlm : lookupKey cfg "marketing" with
    | none =>
      refine ⟨Option.none, ?_⟩
      unfold validate
      rw [hdm]
      simp [hlm, Value.truthy]
    | some v =>
      cases v with
      | dict m =>
        by_cases hne : m.isEmpty
        · refine ⟨Option.none, ?_⟩
          unfold validate
          rw [hdm]
          simp [hlm, hne]
        · rw [validate_reduce hdm hlm (by simpa using hne)]
          by_cases hattrs : marketingAttrs.filter
              (fun a => isMissingOrEmpty ((lookupKey m a).getD .none)) = []
          · rw [afterMarketingPresent_pass hattrs]
            obtain ⟨r, hr⟩ := region_lookup_str hattrs (fun v hv => hrshape m v hlm hv)
            obtain ⟨l, hl⟩ := hloc
            exact afterAttrs_result_ok hr hl
          · refine ⟨Option.none, ?_⟩
            rw [afterMarketingPresent_reject rfl ?_]
            cases hf : marketingAttrs.filter
                (fun a => isMissingOrEmpty ((lookupKey m a).getD .none)) with
            | nil => exact absurd hf hattrs
            | cons x xs => simp [hf]
      | none =>
        refine ⟨Option.none, ?_⟩
        unfold validate
        rw [hdm]
        simp [hlm, Value.truthy]
      | bool b =>
        cases b with
        | false =>
          refine ⟨Option.none, ?_⟩
          unfold validate
          rw [hdm]
          simp [hlm, Value.truthy]
        | true =>
          obtain ⟨d, hd⟩ := hmshape _ hlm rfl
          cases hd
      | int n =>
        by_cases hn : (Value.int n).truthy
        · obtain ⟨d, hd⟩ := hmshape _ hlm hn
          cases hd
        · refine ⟨Option.none, ?_⟩
          have hn' : (n != 0) = false := by simpa [Value.truthy] using hn
          unfold validate
          rw [hdm]
          simp [hlm, Value.truthy, hn']
      | str s =>
        by_cases hs : (Value.str s).truthy
        · obtain ⟨d, hd⟩ := hmshape _ hlm hs
          cases hd
        · refine ⟨Option.none, ?_⟩
          have hs' : (s != "") = false := by simpa [Value.truthy] using hs
          unfold validate
          rw [hdm]
          simp [hlm, Value.truthy, hs']
  · exact ⟨some cfg, by rw [validate_skip (by simpa using hdm)]⟩

/-- C1 witness: the amended theorem applied to a well-formed concrete
config whose collaborator raises on every call. -/
theorem validate_never_raises_wellformed_witness :
    ∃ o, (validate rvAlwaysRaises cfgLocLowerUs).result = Except.ok o :=
  validate_never_raises_wellformed rvAlwaysRaises cfgLocLowerUs
    (by intro v hv _; cases hv; exact ⟨_, rfl⟩)
    (by intro d v hd hv; cases hd; cases hv; exact Or.inr ⟨_, rfl⟩)
    ⟨"us", rfl⟩

lemma gaStage_skip {rv : RVOracle} {cfg : Cfg} {m : List (String × Value)}
    (h : ((lookupKey m "deployGoogleAds").getD .none).truthy = false) :
    gaStage rv cfg m = StageOut.cont [] := by
  simp [gaStage, h]

lemma gaStage_block_missing {rv : RVOracle} {cfg : Cfg} {m : List (String × Value)}
    (hd : ((lookupKey m "deployGoogleAds").getD .none).truthy = true)
    (hb : ((lookupKey m "GoogleAds").getD .none).truthy = false) :
    gaStage rv cfg m = StageOut.reject [] Diag.missingGoogleAdsBlock := by
  simp [gaStage, hd, hb]

lemma gaStage_run_err {rv : RVOracle} {cfg : Cfg} {m : List (String × Value)}
    {e : PyErr} {cs : List RVCall}
    (hd : ((lookupKey m "deployGoogleAds").getD .none).truthy = true)
    (hb : ((lookupKey m "GoogleAds").getD .none).truthy = true)
    (hsub : validateGoogleads rv cfg = ⟨Except.error e, cs⟩) :
    gaStage rv cfg m = StageOut.reject cs (gaDiagOfErr e) := by
  simp [gaStage, hd, hb, hsub]

lemma gaStage_run_ok {rv : RVOracle} {cfg : Cfg} {m : List (String × Value)}
    {cs : List RVCall}
    (hd : ((lookupKey m "deployGoogleAds").getD .none).truthy = true)
    (hb : ((lookupKey m "GoogleAds").getD .none).truthy = true)
    (hsub : validateGoogleads rv cfg = ⟨Except.ok (), cs⟩) :
    gaStage rv cfg m = StageOut.cont cs := by
  simp [gaStage, hd, hb, hsub]

lemma cmStage_skip {rv : RVOracle} {cfg : Cfg} {m : List (String × Value)}
    (h : ((lookupKey m "deployCM360").getD .none).truthy = false) :
    cmStage rv cfg m = StageOut.cont [] := by
  simp [cmStage, h]

lemma cmStage_block_missing {rv : RVOracle} {cfg : Cfg} {m : List (String × Value)}
    (hd : ((lookupKey m "deployCM360").getD .none).truthy = true)
    (hb : ((lookupKey m "CM360").getD .none).truthy = false) :
    cmStage rv cfg m = StageOut.reject [] Diag.missingCM360Block := by
  simp [cmStage, hd, hb]

lemma cmStage_run_err {rv : RVOracle} {cfg : Cfg} {m : List (String × Value)}
    {e : PyErr} {cs : List RVCall}
    (hd : ((lookupKey m "deployCM360").getD .none).truthy = true)
    (hb : ((lookupKey m "CM360").getD .none).truthy = true)
    (hsub : validateCm360 rv cfg = ⟨Except.error e, cs⟩) :
    cmStage rv cfg m = StageOut.reject cs (cmDiagOfErr e) := by
  simp [cmStage, hd, hb, hsub]

lemma cmStage_run_ok {rv : RVOracle} {cfg : Cfg} {m : List (String × Value)}
    {cs : List RVCall}
    (hd : ((lookupKey m "deployCM360").getD .none).truthy = true)
    (hb : ((lookupKey m "CM360").getD .none).truthy = true)
    (hsub : validateCm360 rv cfg = ⟨Except.ok (), cs⟩) :
    cmStage rv cfg m = StageOut.cont cs := by
  simp [cmStage, hd, hb, hsub]

lemma afterAttrs_ga_reject {rv : RVOracle} {cfg : Cfg} {m : List (String × Value)}
    {cs : List RVCall} {d : Diag}
    (h : gaStage rv cfg m = StageOut.reject cs d) :
    afterAttrs rv cfg m = ⟨Except.ok Option.none, cs, [d]⟩ := by
  simp [afterAttrs, h]

lemma afterAttrs_cm_reject {rv : RVOracle} {cfg : Cfg} {m : List (String × Value)}
    {csga cs : List RVCall} {d : Diag}
    (hga : gaStage rv cfg m = StageOut.cont csga)
    (hcm : cmStage rv cfg m = StageOut.reject cs d) :
    afterAttrs rv cfg m = ⟨Except.ok Option.none, csga ++ cs, [d]⟩ := by
  simp [afterAttrs, hga, hcm]

lemma afterAttrs_cont {rv : RVOracle} {cfg : Cfg} {m : List (String × Value)}
    {csga cscm : List RVCall}
    (hga : gaStage rv cfg m = StageOut.cont csga)
    (hcm : cmStage rv cfg m = StageOut.cont cscm) :
    afterAttrs rv cfg m =
      ⟨(regionStage cfg m).1, csga ++ cscm, (regionStage cfg m).2⟩ := by
  simp [afterAttrs, hga, hcm]

lemma gaStage_reject_shape {rv : RVOracle} {cfg : Cfg} {m : List (String × Value)}
    {cs : List RVCall} {d : Diag}
    (h : gaStage rv cfg m = StageOut.reject cs d) :
    d = Diag.missingGoogleAdsBlock ∨ ∃ e, d = gaDiagOfErr e := by
  unfold gaStage at h
  split at h
  · split at h
    · injection h with h1 h2
      exact Or.inl h2.symm
    · split at h
      · cases h
      · injection h with h1 h2
        exact Or.inr ⟨_, h2.symm⟩
  · cases h

lemma cmStage_reject_shape {rv : RVOracle} {cfg : Cfg} {m : List (String × Value)}
    {cs : List RVCall} {d : Diag}
    (h : cmStage rv cfg m = StageOut.reject cs d) :
    d = Diag.missingCM360Block ∨ ∃ e, d = cmDiagOfErr e := by
  unfold cmStage at h
  split at h
  · split at h
    · injection h with h1 h2
      exact Or.inl h2.symm
    · split at h
      · cases h
      · injection h with h1 h2
        exact Or.inr ⟨_, h2.symm⟩
  · cases h

lemma regionStage_errlogs_shape (cfg : Cfg) (m : List (String × Value)) :
    (regionStage cfg m).2 = [] ∨
      ∃ a b, (regionStage cfg m).2 = [Diag.invalidDataflowRegion a b] := by
  unfold regionStage
  split
  · exact Or.inl rfl
  · split
    · exact Or.inl rfl
    · split
      · exact Or.inl rfl
      · split
        · exact Or.inl rfl
        · split
          · exact Or.inr ⟨_, _, rfl⟩
          · exact Or.inl rfl

/-- C5: with marketing deployed and its mapping present, `validate` checks
`deployGoogleAds`, `deployCM360` and `dataflowRegion` as a batch — the
rejection happens once, with a diagnostic listing exactly the
missing/empty attribute names — and rejects on this check if and only if
that list is non-empty. -/
theorem marketing_attrs_batched :
    ∀ (rv : RVOracle) (cfg : Cfg) (m : List (String × Value)),
      ((lookupKey cfg "deployMarketing").getD (Value.bool false)).truthy = true →
      lookupKey cfg "marketing" = some (Value.dict m) →
      m.isEmpty = false →
      ((marketingAttrs.filter
          (fun a => isMissingOrEmpty ((lookupKey m a).getD .none))).isEmpty = false →
        validate rv cfg = ⟨Except.ok Option.none, [],
          [Diag.missingMarketingAttrs
            (marketingAttrs.filter
              (fun a => isMissingOrEmpty ((lookupKey m a).getD .none)))]⟩) ∧
      (marketingAttrs.filter
          (fun a => isMissingOrEmpty ((lookupKey m a).getD .none)) = [] →
        (validate rv cfg).errlogs.all (fun d => !d.isMissingMarketingAttrsDiag) = true) := by
  intro rv cfg m hdm hm hne
  constructor
  · intro hne2
    rw [validate_reduce hdm hm hne, afterMarketingPresent_reject rfl hne2]
  · intro hf
    rw [validate_reduce hdm hm hne, afterMarketingPresent_pass hf]
    cases hga : gaStage rv cfg m with
    | reject cs d =>
      rw [afterAttrs_ga_reject hga]
      rcases gaStage_reject_shape hga with rfl | ⟨e, rfl⟩
      · simp [Diag.isMissingMarketingAttrsDiag]
      · cases e <;> simp [gaDiagOfErr, Diag.isMissingMarketingAttrsDiag]
    | cont csga =>
      cases hcm : cmStage rv cfg m with
      | reject cs d =>
        rw [afterAttrs_cm_reject hga hcm]
        rcases cmStage_reject_shape hcm with rfl | ⟨e, rfl⟩
        · simp [Diag.isMissingMarketingAttrsDiag]
        · cases e <;> simp [cmDiagOfErr, Diag.isMissingMarketingAttrsDiag]
      | cont cscm =>
        rw [afterAttrs_cont hga hcm]
        rcases regionStage_errlogs_shape cfg m with h | ⟨a, b, h⟩
        · simp [h]
        · simp [h, Diag.isMissingMarketingAttrsDiag]

/-- C5 witness: a config missing `deployGoogleAds` and `dataflowRegion` is
rejected with a diagnostic naming exactly those two; a config with all
three present logs no such diagnostic. -/
theorem marketing_attrs_batched_witness :
    validate rvAlwaysTrue cfgMissingTwo = ⟨Except.ok Option.none, [],
      [Diag.missingMarketingAttrs ["deployGoogleAds", "dataflowRegion"]]⟩ ∧
    (validate rvAlwaysTrue cfgLocLowerUs).errlogs.all
      (fun d => !d.isMissingMarketingAttrsDiag) = true :=
  ⟨(marketing_attrs_batched rvAlwaysTrue cfgMissingTwo
      [("deployCM360", Value.bool true)] rfl rfl rfl).1 rfl,
   (marketing_attrs_batched rvAlwaysTrue cfgLocLowerUs
      [("deployGoogleAds", Value.bool false),
       ("deployCM360", Value.bool false),
       ("dataflowRegion", Value.str "us-central1")] rfl rfl rfl).2 rfl⟩

/-- C3: once the marketing attribute batch and both sub-module branches
have passed, `validate` lower-cases `dataflowRegion` and `location` and
rejects if and only if the lower-cased `dataflowRegion` is neither equal
to the lower-cased `location` nor starts with it followed by a dash;
moreover, when either sub-module branch rejects, no region-containment
diagnostic is ever emitted (the check runs only after both passed). -/
theorem region_containment_semantics :
    (∀ (rv : RVOracle) (cfg : Cfg) (m : List (String × Value))
        (csga cscm : List RVCall) (r l : String),
      ((lookupKey cfg "deployMarketing").getD (Value.bool false)).truthy = true →
      lookupKey cfg "marketing" = some (Value.dict m) →
      m.isEmpty = false →
      marketingAttrs.filter (fun a => isMissingOrEmpty ((lookupKey m a).getD .none)) = [] →
      gaStage rv cfg m = StageOut.cont csga →
      cmStage rv cfg m = StageOut.cont cscm →
      lookupKey m "dataflowRegion" = some (Value.str r) →
      lookupKey cfg "location" = some (Value.str l) →
      validate rv cfg =
        (if pyLower r != pyLower l && !pyStartsWith (pyLower r) (pyLower l ++ "-") then
          ⟨Except.ok Option.none, csga ++ cscm,
            [Diag.invalidDataflowRegion (Value.str r) (Value.str l)]⟩
        else ⟨Except.ok (some cfg), csga ++ cscm, []⟩)) ∧
    (∀ (rv : RVOracle) (cfg : Cfg) (m : List (String × Value))
        (cs : List RVCall) (d : Diag),
      ((lookupKey cfg "deployMarketing").getD (Value.bool false)).truthy = true →
      lookupKey cfg "marketing" = some (Value.dict m) →
      m.isEmpty = false →
      marketingAttrs.filter (fun a => isMissingOrEmpty ((lookupKey m a).getD .none)) = [] →
      gaStage rv cfg m = StageOut.reject cs d →
      (validate rv cfg).errlogs.all (fun x => !x.isInvalidRegionDiag) = true) ∧
    (∀ (rv : RVOracle) (cfg : Cfg) (m : List (String × Value))
        (csga cs : List RVCall) (d : Diag),
      ((lookupKey cfg "deployMarketing").getD (Value.bool false)).truthy = true →
      lookupKey cfg "marketing" = some (Value.dict m) →
      m.isEmpty = false →
      marketingAttrs.filter (fun a => isMissingOrEmpty ((lookupKey m a).getD .none)) = [] →
      gaStage rv cfg m = StageOut.cont csga →
      cmStage rv cfg m = StageOut.reject cs d →
      (validate rv cfg).errlogs.all (fun x => !x.isInvalidRegionDiag) = true) := by
  refine ⟨?_, ?_, ?_⟩
  · intro rv cfg m csga cscm r l hdm hm hne hf hga hcm hr hl
    rw [validate_reduce hdm hm hne, afterMarketingPresent_pass hf,
      afterAttrs_cont hga hcm, regionStage_strings hr hl]
    by_cases hc :
        (pyLower r != pyLower l && !pyStartsWith (pyLower r) (pyLower l ++ "-")) = true
    · simp [hc]
    · simp [hc]
  · intro rv cfg m cs d hdm hm hne hf hga
    rw [validate_reduce hdm hm hne, afterMarketingPresent_pass hf,
      afterAttrs_ga_reject hga]
    rcases gaStage_reject_shape hga with rfl | ⟨e, rfl⟩
    · simp [Diag.isInvalidRegionDiag]
    · cases e <;> simp [gaDiagOfErr, Diag.isInvalidRegionDiag]
  · intro rv cfg m csga cs d hdm hm hne hf hga hcm
    rw [validate_reduce hdm hm hne, afterMarketingPresent_pass hf,
      afterAttrs_cm_reject hga hcm]
    rcases cmStage_reject_shape hcm with rfl | ⟨e, rfl⟩
    · simp [Diag.isInvalidRegionDiag]
    · cases e <;> simp [cmDiagOfErr, Diag.isInvalidRegionDiag]

/-- C3 witness: a mismatched pair (`eu` vs `us-central1`) is rejected with
the region diagnostic, and a GoogleAds failure suppresses any region
diagnostic. -/
theorem region_containment_semantics_witness :
    validate rvAlwaysTrue cfgRegionMismatch = ⟨Except.ok Option.none, [],
      [Diag.invalidDataflowRegion (Value.str "us-central1") (Value.str "eu")]⟩ ∧
    (validate rvAlwaysTrue cfgGaFail).errlogs.all
      (fun x => !x.isInvalidRegionDiag) = true :=
  ⟨region_containment_semantics.1 rvAlwaysTrue cfgRegionMismatch
      [("deployGoogleAds", Value.bool false),
       ("deployCM360", Value.bool false),
       ("dataflowRegion", Value.str "us-central1")]
      [] [] "us-central1" "eu" rfl rfl rfl rfl
      (gaStage_skip (by rfl)) (cmStage_skip (by rfl)) rfl rfl,
   region_containment_semantics.2.1 rvAlwaysTrue cfgGaFail
      [("deployGoogleAds", Value.bool true),
       ("deployCM360", Value.bool true),
       ("dataflowRegion", Value.str "us-central1"),
       ("GoogleAds", Value.dict
         [("deployCDC", Value.bool true),
          ("datasets", Value.dict
            [("cdc", Value.str "ga_cdc"),
             ("raw", Value.str "ga_raw"),
             ("reporting", Value.str "ga_rep")])])]
      []
      (Diag.googleAdsValueError (SubErr.missingGoogleAdsAttrs ["lookbackDays"]))
      rfl rfl rfl rfl
      (gaStage_run_err (by rfl) (by rfl) (by rfl))⟩

/-- C4: when GoogleAds is enabled and its validation fails — missing
sub-mapping, a `ValueError` from the attribute checks, or a failed or
crashing resource check — `validate` rejects immediately: the calls of the run
are exactly the GoogleAds calls, the single diagnostic concerns GoogleAds
(never CM360), and CM360 validation is not attempted; when GoogleAds
succeeds, its calls form a leading segment of the call trace of the whole run, so its
resource-validation call completes before any CM360 call begins. -/
theorem googleads_fail_fast :
    (∀ (rv : RVOracle) (cfg : Cfg) (m : List (String × Value)),
      ((lookupKey cfg "deployMarketing").getD (Value.bool false)).truthy = true →
      lookupKey cfg "marketing" = some (Value.dict m) →
      m.isEmpty = false →
      marketingAttrs.filter (fun a => isMissingOrEmpty ((lookupKey m a).getD .none)) = [] →
      ((lookupKey m "deployGoogleAds").getD .none).truthy = true →
      ((lookupKey m "GoogleAds").getD .none).truthy = false →
      validate rv cfg = ⟨Except.ok Option.none, [], [Diag.missingGoogleAdsBlock]⟩) ∧
    (∀ (rv : RVOracle) (cfg : Cfg) (m : List (String × Value))
        (e : PyErr) (cs : List RVCall),
      ((lookupKey cfg "deployMarketing").getD (Value.bool false)).truthy = true →
      lookupKey cfg "marketing" = some (Value.dict m) →
      m.isEmpty = false →
      marketingAttrs.filter (fun a => isMissingOrEmpty ((lookupKey m a).getD .none)) = [] →
      ((lookupKey m "deployGoogleAds").getD .none).truthy = true →
      ((lookupKey m "GoogleAds").getD .none).truthy = true →
      validateGoogleads rv cfg = ⟨Except.error e, cs⟩ →
      validate rv cfg = ⟨Except.ok Option.none, cs, [gaDiagOfErr e]⟩ ∧
        (gaDiagOfErr e).isCM360Diag = false) ∧
    (∀ (rv : RVOracle) (cfg : Cfg) (m : List (String × Value)) (cs : List RVCall),
      ((lookupKey cfg "deployMarketing").getD (Value.bool false)).truthy = true →
      lookupKey cfg "marketing" = some (Value.dict m) →
      m.isEmpty = false →
      marketingAttrs.filter (fun a => isMissingOrEmpty ((lookupKey m a).getD .none)) = [] →
      ((lookupKey m "deployGoogleAds").getD .none).truthy = true →
      ((lookupKey m "GoogleAds").getD .none).truthy = true →
      validateGoogleads rv cfg = ⟨Except.ok (), cs⟩ →
      ∃ rest, (validate rv cfg).calls = cs ++ rest) := by
  refine ⟨?_, ?_, ?_⟩
  · intro rv cfg m hdm hm hne hf hdga hblock
    rw [validate_reduce hdm hm hne, afterMarketingPresent_pass hf,
      afterAttrs_ga_reject (gaStage_block_missing hdga hblock)]
  · intro rv cfg m e cs hdm hm hne hf hdga hblock hsub
    refine ⟨?_, ?_⟩
    · rw [validate_reduce hdm hm hne, afterMarketingPresent_pass hf,
        afterAttrs_ga_reject (gaStage_run_err hdga hblock hsub)]
    · cases e <;> rfl
  · intro rv cfg m cs hdm hm hne hf hdga hblock hsub
    rw [validate_reduce hdm hm hne, afterMarketingPresent_pass hf]
    cases hcm : cmStage rv cfg m with
    | reject cs2 d =>
      rw [afterAttrs_cm_reject (gaStage_run_ok hdga hblock hsub) hcm]
      exact ⟨cs2, rfl⟩
    | cont cscm =>
      rw [afterAttrs_cont (gaStage_run_ok hdga hblock hsub) hcm]
      exact ⟨cscm, rfl⟩

/-- C4 witness: a GoogleAds sub-mapping missing `lookbackDays` rejects the
run naming `lookbackDays` with no CM360 diagnostic, even though CM360 is
enabled with its sub-mapping absent, and a missing GoogleAds sub-mapping
rejects before any collaborator call. -/
theorem googleads_fail_fast_witness :
    (validate rvAlwaysTrue cfgGaFail = ⟨Except.ok Option.none, [],
        [Diag.googleAdsValueError (SubErr.missingGoogleAdsAttrs ["lookbackDays"])]⟩ ∧
      (Diag.googleAdsValueError
        (SubErr.missingGoogleAdsAttrs ["lookbackDays"])).isCM360Diag = false) ∧
    validate rvAlwaysTrue cfgGaBlockMissing =
      ⟨Except.ok Option.none, [], [Diag.missingGoogleAdsBlock]⟩ :=
  ⟨googleads_fail_fast.2.1 rvAlwaysTrue cfgGaFail
      [("deployGoogleAds", Value.bool true),
       ("deployCM360", Value.bool true),
       ("dataflowRegion", Value.str "us-central1"),
       ("GoogleAds", Value.dict
         [("deployCDC", Value.bool true),
          ("datasets", Value.dict
            [("cdc", Value.str "ga_cdc"),
             ("raw", Value.str "ga_raw"),
             ("reporting", Value.str "ga_rep")])])]
      (PyErr.valueError (SubErr.missingGoogleAdsAttrs ["lookbackDays"])) []
      rfl rfl rfl rfl (by rfl) (by rfl) (by rfl),
   googleads_fail_fast.1 rvAlwaysTrue cfgGaBlockMissing
      [("deployGoogleAds", Value.bool true),
       ("deployCM360", Value.bool true),
       ("dataflowRegion", Value.str "us-central1")]
      rfl rfl rfl rfl (by rfl) (by rfl)⟩

/-- C6: after its attribute checks pass, each sub-module validator hands
the collaborator exactly one call with the dataset constraints
`projectIdSource.raw` and `projectIdSource.cdc` (mustExist, checkAccess),
`projectIdTarget.reporting` (need not exist, checkAccess), every one
carrying the configured location; CM360 additionally includes the single
mustExist bucket constraint for `dataTransferBucket`; the result is
success on `true`, a `ValueError` rejection on `false`, and the
exception of the collaborator otherwise. -/
theorem submodule_constraint_descriptors :
    (∀ (rv : RVOracle) (cfg : Cfg) (m g ds : List (String × Value))
        (src tgt loc rawv cdcv repv : Value) (call : RVCall),
      lookupKey cfg "marketing" = some (Value.dict m) →
      lookupKey m "GoogleAds" = some (Value.dict g) →
      googleadsAttrs.filter (fun a => isMissingOrEmpty ((lookupKey g a).getD .none)) = [] →
      lookupKey g "datasets" = some (Value.dict ds) →
      datasetsAttrs.filter (fun a => isMissingOrEmpty ((lookupKey ds a).getD .none)) = [] →
      lookupKey cfg "projectIdSource" = some src →
      lookupKey cfg "projectIdTarget" = some tgt →
      lookupKey cfg "location" = some loc →
      lookupKey ds "raw" = some rawv →
      lookupKey ds "cdc" = some cdcv →
      lookupKey ds "reporting" = some repv →
      call = ⟨[], [⟨pyStr src ++ "." ++ pyStr rawv, true, true, loc⟩,
                   ⟨pyStr src ++ "." ++ pyStr cdcv, true, true, loc⟩,
                   ⟨pyStr tgt ++ "." ++ pyStr repv, false, true, loc⟩]⟩ →
      (validateGoogleads rv cfg).calls = [call] ∧
      (validateGoogleads rv cfg).result =
        (match rv call with
          | Except.ok true => Except.ok ()
          | Except.ok false => Except.error (PyErr.valueError SubErr.resourceValidationFailed)
          | Except.error e => Except.error e)) ∧
    (∀ (rv : RVOracle) (cfg : Cfg) (m cm ds : List (String × Value))
        (src tgt loc bucketv rawv cdcv repv : Value) (call : RVCall),
      lookupKey cfg "marketing" = some (Value.dict m) →
      lookupKey m "CM360" = some (Value.dict cm) →
      cm360Attrs.filter (fun a => isMissingOrEmpty ((lookupKey cm a).getD .none)) = [] →
      lookupKey cm "datasets" = some (Value.dict ds) →
      datasetsAttrs.filter (fun a => isMissingOrEmpty ((lookupKey ds a).getD .none)) = [] →
      lookupKey cfg "projectIdSource" = some src →
      lookupKey cfg "projectIdTarget" = some tgt →
      lookupKey cfg "location" = some loc →
      lookupKey cm "dataTransferBucket" = some bucketv →
      lookupKey ds "raw" = some rawv →
      lookupKey ds "cdc" = some cdcv →
      lookupKey ds "reporting" = some repv →
      call = ⟨[⟨bucketv, true, loc⟩],
              [⟨pyStr src ++ "." ++ pyStr rawv, true, true, loc⟩,
               ⟨pyStr src ++ "." ++ pyStr cdcv, true, true, loc⟩,
               ⟨pyStr tgt ++ "." ++ pyStr repv, false, true, loc⟩]⟩ →
      (validateCm360 rv cfg).calls = [call] ∧
      (validateCm360 rv cfg).result =
        (match rv call with
          | Except.ok true => Except.ok ()
          | Except.ok false => Except.error (PyErr.valueError SubErr.resourceValidationFailed)
          | Except.error e => Except.error e)) := by
  constructor
  · intro rv cfg m g ds src tgt loc rawv cdcv repv call
      hm hga hf1 hds hf2 hsrc htgt hloc hraw hcdc hrep hcall
    subst hcall
    unfold validateGoogleads
    simp only [hm, Value.getItem, hga, hf1, hds, hf2, hsrc, htgt, hloc, hraw, hcdc, hrep,
      List.isEmpty_nil, Bool.not_true, Bool.false_eq_true, if_false, ite_false]
    cases hrv : rv ⟨[], [⟨pyStr src ++ "." ++ pyStr rawv, true, true, loc⟩,
                         ⟨pyStr src ++ "." ++ pyStr cdcv, true, true, loc⟩,
                         ⟨pyStr tgt ++ "." ++ pyStr repv, false, true, loc⟩]⟩ with
    | ok b => cases b <;> simp [hrv]
    | error e => simp [hrv]
  · intro rv cfg m cm ds src tgt loc bucketv rawv cdcv repv call
      hm hcm hf1 hds hf2 hsrc htgt hloc hbucket hraw hcdc hrep hcall
    subst hcall
    unfold validateCm360
    simp only [hm, Value.getItem, hcm, hf1, hds, hf2, hsrc, htgt, hloc, hbucket,
      hraw, hcdc, hrep,
      List.isEmpty_nil, Bool.not_true, Bool.false_eq_true, if_false, ite_false]
    cases hrv : rv ⟨[⟨bucketv, true, loc⟩],
                    [⟨pyStr src ++ "." ++ pyStr rawv, true, true, loc⟩,
                     ⟨pyStr src ++ "." ++ pyStr cdcv, true, true, loc⟩,
                     ⟨pyStr tgt ++ "." ++ pyStr repv, false, true, loc⟩]⟩ with
    | ok b => cases b <;> simp [hrv]
    | error e => simp [hrv]

/-- C6 witness: on the fully populated config, GoogleAds hands over exactly
its three dataset constraints (no bucket) and succeeds on a passing
collaborator; CM360 hands over its bucket plus three dataset constraints
and raises the resource-validation `ValueError` on a failing
collaborator. -/
theorem submodule_constraint_descriptors_witness :
    ((validateGoogleads rvAlwaysTrue cfgFull).calls =
      [⟨[], [⟨"src-project.ga_raw", true, true, Value.str "us"⟩,
             ⟨"src-project.ga_cdc", true, true, Value.str "us"⟩,
             ⟨"tgt-project.ga_rep", false, true, Value.str "us"⟩]⟩] ∧
     (validateGoogleads rvAlwaysTrue cfgFull).result = Except.ok ()) ∧
    ((validateCm360 rvAlwaysFalse cfgFull).calls =
      [⟨[⟨Value.str "cm-bucket", true, Value.str "us"⟩],
        [⟨"src-project.cm_raw", true, true, Value.str "us"⟩,
         ⟨"src-project.cm_cdc", true, true, Value.str "us"⟩,
         ⟨"tgt-project.cm_rep", false, true, Value.str "us"⟩]⟩] ∧
     (validateCm360 rvAlwaysFalse cfgFull).result =
       Except.error (PyErr.valueError SubErr.resourceValidationFailed)) := by
  constructor
  · have h := submodule_constraint_descriptors.1 rvAlwaysTrue cfgFull
      [("deployGoogleAds", Value.bool true),
       ("deployCM360", Value.bool true),
       ("dataflowRegion", Value.str "us-central1"),
       ("GoogleAds", Value.dict
         [("deployCDC", Value.bool true),
          ("lookbackDays", Value.int 30),
          ("datasets", Value.dict
            [("cdc", Value.str "ga_cdc"),
             ("raw", Value.str "ga_raw"),
             ("reporting", Value.str "ga_rep")])]),
       ("CM360", Value.dict
         [("deployCDC", Value.bool true),
          ("dataTransferBucket", Value.str "cm-bucket"),
          ("datasets", Value.dict
            [("cdc", Value.str "cm_cdc"),
             ("raw", Value.str "cm_raw"),
             ("reporting", Value.str "cm_rep")])])]
      [("deployCDC", Value.bool true),
       ("lookbackDays", Value.int 30),
       ("datasets", Value.dict
         [("cdc", Value.str "ga_cdc"),
          ("raw", Value.str "ga_raw"),
          ("reporting", Value.str "ga_rep")])]
      [("cdc", Value.str "ga_cdc"),
       ("raw", Value.str "ga_raw"),
       ("reporting", Value.str "ga_rep")]
      (Value.str "src-project") (Value.str "tgt-project") (Value.str "us")
      (Value.str "ga_raw") (Value.str "ga_cdc") (Value.str "ga_rep")
      ⟨[], [⟨"src-project.ga_raw", true, true, Value.str "us"⟩,
            ⟨"src-project.ga_cdc", true, true, Value.str "us"⟩,
            ⟨"tgt-project.ga_rep", false, true, Value.str "us"⟩]⟩
      rfl rfl rfl rfl rfl rfl rfl rfl rfl rfl rfl rfl
    exact ⟨h.1, h.2⟩
  · have h := submodule_constraint_descriptors.2 rvAlwaysFalse cfgFull
      [("deployGoogleAds", Value.bool true),
       ("deployCM360", Value.bool true),
       ("dataflowRegion", Value.str "us-central1"),
       ("GoogleAds", Value.dict
         [("deployCDC", Value.bool true),
          ("lookbackDays", Value.int 30),
          ("datasets", Value.dict
            [("cdc", Value.str "ga_cdc"),
             ("raw", Value.str "ga_raw"),
             ("reporting", Value.str "ga_rep")])]),
       ("CM360", Value.dict
         [("deployCDC", Value.bool true),
          ("dataTransferBucket", Value.str "cm-bucket"),
          ("datasets", Value.dict
            [("cdc", Value.str "cm_cdc"),
             ("raw", Value.str "cm_raw"),
             ("reporting", Value.str "cm_rep")])])]
      [("deployCDC", Value.bool true),
       ("dataTransferBucket", Value.str "cm-bucket"),
       ("datasets", Value.dict
         [("cdc", Value.str "cm_cdc"),
          ("raw", Value.str "cm_raw"),
          ("reporting", Value.str "cm_rep")])]
      [("cdc", Value.str "cm_cdc"),
       ("raw", Value.str "cm_raw"),
       ("reporting", Value.str "cm_rep")]
      (Value.str "src-project") (Value.str "tgt-project") (Value.str "us")
      (Value.str "cm-bucket")
      (Value.str "cm_raw") (Value.str "cm_cdc") (Value.str "cm_rep")
      ⟨[⟨Value.str "cm-bucket", true, Value.str "us"⟩],
       [⟨"src-project.cm_raw", true, true, Value.str "us"⟩,
        ⟨"src-project.cm_cdc", true, true, Value.str "us"⟩,
        ⟨"tgt-project.cm_rep", false, true, Value.str "us"⟩]⟩
      rfl rfl rfl rfl rfl rfl rfl rfl rfl rfl rfl rfl rfl
    exact ⟨h.1, h.2⟩

lemma regionStage_result_some {cfg : Cfg} {m : List (String × Value)} {r : Cfg}
    (h : (regionStage cfg m).1 = Except.ok (some r)) : r = cfg := by
  unfold regionStage at h
  split at h
  · simp at h
  · split at h
    · simp at h
    · split at h
      · simp at h
      · split at h
        · simp at h
        · split at h
          · simp at h
          · simp at h
            exact h.symm

lemma afterMarketingPresent_result_some {rv : RVOracle} {cfg : Cfg}
    {m : List (String × Value)} {r : Cfg}
    (h : (afterMarketingPresent rv cfg m).result = Except.ok (some r)) : r = cfg := by
  simp only [afterMarketingPresent] at h
  split at h
  · simp at h
  · unfold afterAttrs at h
    split at h
    · simp at h
    · split at h
      · simp at h
      · exact regionStage_result_some h

/-- C8: `validate` never mutates the input configuration — every successful
return carries the original config value verbatim — and when
`deployMarketing` is falsy it returns `cfg` unchanged with no collaborator
call and no diagnostic. -/
theorem validate_returns_original :
    (∀ (rv : RVOracle) (cfg : Cfg),
      ((lookupKey cfg "deployMarketing").getD (Value.bool false)).truthy = false →
      validate rv cfg = ⟨Except.ok (some cfg), [], []⟩) ∧
    (∀ (rv : RVOracle) (cfg : Cfg) (r : Cfg),
      (validate rv cfg).result = Except.ok (some r) → r = cfg) := by
  constructor
  · intro rv cfg h
    exact validate_skip h
  · intro rv cfg r h
    unfold validate at h
    split at h
    · simp at h
      exact h.symm
    · split at h
      · split at h
        · simp at h
        · exact afterMarketingPresent_result_some h
      · split at h
        · simp at h
        · simp at h

/-- C8 witness: a disabled-marketing config passes through unchanged even
under a collaborator that raises on every call, and a successful run
returns the original config. -/
theorem validate_returns_original_witness :
    validate rvAlwaysRaises cfgDisabled = ⟨Except.ok (some cfgDisabled), [], []⟩ ∧
    cfgLocLowerUs = cfgLocLowerUs :=
  ⟨validate_returns_original.1 rvAlwaysRaises cfgDisabled rfl,
   validate_returns_original.2 rvAlwaysTrue cfgLocLowerUs cfgLocLowerUs rfl⟩

/-- C9: the presence checks on the `marketing`, `GoogleAds` and `CM360`
mappings are truthiness checks: a present-but-empty mapping is rejected
exactly like an absent one, with the same diagnostic, result and (lack of)
collaborator calls. -/
theorem empty_mapping_treated_as_absent :
    (∀ (rv : RVOracle) (cfg : Cfg),
      ((lookupKey cfg "deployMarketing").getD (Value.bool false)).truthy = true →
      (lookupKey cfg "marketing" = some (Value.dict []) ∨
        lookupKey cfg "marketing" = Option.none) →
      validate rv cfg = ⟨Except.ok Option.none, [], [Diag.missingMarketing]⟩) ∧
    (∀ (rv : RVOracle) (cfg : Cfg) (m : List (String × Value)),
      ((lookupKey cfg "deployMarketing").getD (Value.bool false)).truthy = true →
      lookupKey cfg "marketing" = some (Value.dict m) →
      m.isEmpty = false →
      marketingAttrs.filter (fun a => isMissingOrEmpty ((lookupKey m a).getD .none)) = [] →
      ((lookupKey m "deployGoogleAds").getD .none).truthy = true →
      (lookupKey m "GoogleAds" = some (Value.dict []) ∨
        lookupKey m "GoogleAds" = Option.none) →
      validate rv cfg = ⟨Except.ok Option.none, [], [Diag.missingGoogleAdsBlock]⟩) ∧
    (∀ (rv : RVOracle) (cfg : Cfg) (m : List (String × Value)),
      ((lookupKey cfg "deployMarketing").getD (Value.bool false)).truthy = true →
      lookupKey cfg "marketing" = some (Value.dict m) →
      m.isEmpty = false →
      marketingAttrs.filter (fun a => isMissingOrEmpty ((lookupKey m a).getD .none)) = [] →
      ((lookupKey m "deployGoogleAds").getD .none).truthy = false →
      ((lookupKey m "deployCM360").getD .none).truthy = true →
      (lookupKey m "CM360" = some (Value.dict []) ∨
        lookupKey m "CM360" = Option.none) →
      validate rv cfg = ⟨Except.ok Option.none, [], [Diag.missingCM360Block]⟩) := by
  refine ⟨?_, ?_, ?_⟩
  · intro rv cfg hdm hdisj
    rcases hdisj with hlm | hlm
    · unfold validate
      rw [hdm]
      simp [hlm]
    · unfold validate
      rw [hdm]
      simp [hlm, Value.truthy]
  · intro rv cfg m hdm hm hne hf hdga hdisj
    have hb : ((lookupKey m "GoogleAds").getD .none).truthy = false := by
      rcases hdisj with hlg | hlg <;> simp [hlg, Value.truthy]
    rw [validate_reduce hdm hm hne, afterMarketingPresent_pass hf,
      afterAttrs_ga_reject (gaStage_block_missing hdga hb)]
  · intro rv cfg m hdm hm hne hf hdgaf hdcm hdisj
    have hb : ((lookupKey m "CM360").getD .none).truthy = false := by
      rcases hdisj with hlg | hlg <;> simp [hlg, Value.truthy]
    rw [validate_reduce hdm hm hne, afterMarketingPresent_pass hf,
      afterAttrs_cm_reject (gaStage_skip hdgaf) (cmStage_block_missing hdcm hb)]
    rfl

/-- C9 witness: the three empty-mapping configs are rejected with the same
diagnostics an absent mapping produces. -/
theorem empty_mapping_treated_as_absent_witness :
    validate rvAlwaysTrue cfgMarketingEmpty =
      ⟨Except.ok Option.none, [], [Diag.missingMarketing]⟩ ∧
    validate rvAlwaysTrue cfgGaEmpty =
      ⟨Except.ok Option.none, [], [Diag.missingGoogleAdsBlock]⟩ ∧
    validate rvAlwaysTrue cfgCmEmpty =
      ⟨Except.ok Option.none, [], [Diag.missingCM360Block]⟩ :=
  ⟨empty_mapping_treated_as_absent.1 rvAlwaysTrue cfgMarketingEmpty rfl (Or.inl rfl),
   empty_mapping_treated_as_absent.2.1 rvAlwaysTrue cfgGaEmpty
     [("deployGoogleAds", Value.bool true),
      ("deployCM360", Value.bool false),
      ("dataflowRegion", Value.str "us-central1"),
      ("GoogleAds", Value.dict [])]
     rfl rfl rfl rfl (by rfl) (Or.inl rfl),
   empty_mapping_treated_as_absent.2.2 rvAlwaysTrue cfgCmEmpty
     [("deployGoogleAds", Value.bool false),
      ("deployCM360", Value.bool true),
      ("dataflowRegion", Value.str "us-central1"),
      ("CM360", Value.dict [])]
     rfl rfl rfl rfl (by rfl) (by rfl) (Or.inl rfl)⟩

/-- C10: deploy flags are interpreted by truthiness, not boolean equality:
the missing/empty attribute test flags only `None` and the empty string
(so `false` and `0` pass it); any falsy `deployMarketing` triggers the
pass-through; falsy `deployGoogleAds`/`deployCM360` skip the whole
sub-module validation and its collaborator call, going straight to the
region check; and a truthy non-boolean such as the string `"false"`
enables the sub-module branch. -/
theorem deploy_flags_truthiness :
    (∀ v, isMissingOrEmpty v = true ↔ (v = Value.none ∨ v = Value.str "")) ∧
    (∀ (rv : RVOracle) (cfg : Cfg),
      ((lookupKey cfg "deployMarketing").getD (Value.bool false)).truthy = false →
      validate rv cfg = ⟨Except.ok (some cfg), [], []⟩) ∧
    ((Value.bool false).truthy = false ∧ (Value.int 0).truthy = false ∧
      (Value.str "").truthy = false ∧ Value.none.truthy = false ∧
      (Value.str "false").truthy = true) ∧
    (∀ (rv : RVOracle) (cfg : Cfg) (m : List (String × Value)) (r l : String),
      ((lookupKey cfg "deployMarketing").getD (Value.bool false)).truthy = true →
      lookupKey cfg "marketing" = some (Value.dict m) →
      m.isEmpty = false →
      marketingAttrs.filter (fun a => isMissingOrEmpty ((lookupKey m a).getD .none)) = [] →
      ((lookupKey m "deployGoogleAds").getD .none).truthy = false →
      ((lookupKey m "deployCM360").getD .none).truthy = false →
      lookupKey m "dataflowRegion" = some (Value.str r) →
      lookupKey cfg "location" = some (Value.str l) →
      validate rv cfg =
        (if pyLower r != pyLower l && !pyStartsWith (pyLower r) (pyLower l ++ "-") then
          ⟨Except.ok Option.none, [],
            [Diag.invalidDataflowRegion (Value.str r) (Value.str l)]⟩
        else ⟨Except.ok (some cfg), [], []⟩)) ∧
    (∀ (rv : RVOracle) (cfg : Cfg) (m : List (String × Value)),
      ((lookupKey cfg "deployMarketing").getD (Value.bool false)).truthy = true →
      lookupKey cfg "marketing" = some (Value.dict m) →
      m.isEmpty = false →
      marketingAttrs.filter (fun a => isMissingOrEmpty ((lookupKey m a).getD .none)) = [] →
      lookupKey m "deployGoogleAds" = some (Value.str "false") →
      lookupKey m "GoogleAds" = Option.none →
      validate rv cfg = ⟨Except.ok Option.none, [], [Diag.missingGoogleAdsBlock]⟩) := by
  refine ⟨?_, ?_, ?_, ?_, ?_⟩
  · intro v
    cases v <;> simp [isMissingOrEmpty]
  · intro rv cfg h
    exact validate_skip h
  · refine ⟨rfl, by simp [Value.truthy], rfl, rfl, rfl⟩
  · intro rv cfg m r l hdm hm hne hf hga hcm hr hl
    rw [validate_reduce hdm hm hne, afterMarketingPresent_pass hf,
      afterAttrs_cont (gaStage_skip hga) (cmStage_skip hcm), regionStage_strings hr hl]
    by_cases hc :
        (pyLower r != pyLower l && !pyStartsWith (pyLower r) (pyLower l ++ "-")) = true
    · simp [hc]
    · simp [hc]
  · intro rv cfg m hdm hm hne hf hga hblock
    have hdga : ((lookupKey m "deployGoogleAds").getD .none).truthy = true := by
      simp [hga, Value.truthy]
    have hb : ((lookupKey m "GoogleAds").getD .none).truthy = false := by
      simp [hblock, Value.truthy]
    rw [validate_reduce hdm hm hne, afterMarketingPresent_pass hf,
      afterAttrs_ga_reject (gaStage_block_missing hdga hb)]

/-- C10 witness: `deployMarketing=0` passes through unchanged; with both
deploy flags `false` the run goes straight to the region check with no
collaborator call; and `deployGoogleAds="false"` (a truthy string) enables
the GoogleAds branch, which rejects for the absent sub-mapping. -/
theorem deploy_flags_truthiness_witness :
    validate rvAlwaysRaises cfgDeployZero =
      ⟨Except.ok (some cfgDeployZero), [], []⟩ ∧
    validate rvAlwaysRaises cfgLocLowerUs =
      ⟨Except.ok (some cfgLocLowerUs), [], []⟩ ∧
    validate rvAlwaysTrue cfgGaStrFalse =
      ⟨Except.ok Option.none, [], [Diag.missingGoogleAdsBlock]⟩ := by
  refine ⟨?_, ?_, ?_⟩
  · exact deploy_flags_truthiness.2.1 rvAlwaysRaises cfgDeployZero rfl
  · have h := deploy_flags_truthiness.2.2.2.1 rvAlwaysRaises cfgLocLowerUs
      [("deployGoogleAds", Value.bool false),
       ("deployCM360", Value.bool false),
       ("dataflowRegion", Value.str "us-central1")]
      "us-central1" "us" rfl rfl rfl rfl (by rfl) (by rfl) rfl rfl
    exact h.trans (by rfl)
  · exact deploy_flags_truthiness.2.2.2.2 rvAlwaysTrue cfgGaStrFalse
      [("deployGoogleAds", Value.str "false"),
       ("deployCM360", Value.bool false),
       ("dataflowRegion", Value.str "us-central1")]
      rfl rfl rfl rfl rfl rfl
